import Mathlib

/-!
Verification of the user-account management module (app/models/user_model.py,
app/services/user_service.py) against its specification.

The service layer is embedded shallowly: the database session is a list of user
records, a committed mutation is an in-place update of the record with the
matching primary key, and each service classmethod becomes a pure function from
the database (plus its external collaborators, passed as parameters) to the new
database paired with its return value.  Timestamps are integers passed in as a
`now` parameter; UUID primary keys are natural numbers.
-/

namespace UserApp

/-- Models Python `str.isupper` on a single character, faithful on the ASCII
and Latin-1 letter ranges: `A`-`Z` (0x41-0x5A) and `À`-`Þ` (0xC0-0xDE) minus
the multiplication sign 0xD7.  Characters outside these ranges (further Unicode
planes, and the Latin-1 signs such as superscripts) are not used by any theorem
below. -/
def pyIsUpper (c : Char) : Bool :=
  (65 ≤ c.toNat && c.toNat ≤ 90) || (192 ≤ c.toNat && c.toNat ≤ 222 && c.toNat ≠ 215)

/-- Models Python `str.islower` on a single character, faithful on the ASCII
and Latin-1 letter ranges: `a`-`z` (0x61-0x7A) and `ß`-`ÿ` (0xDF-0xFF) minus
the division sign 0xF7. -/
def pyIsLower (c : Char) : Bool :=
  (97 ≤ c.toNat && c.toNat ≤ 122) || (223 ≤ c.toNat && c.toNat ≤ 255 && c.toNat ≠ 247)

/-- Models Python `str.isdigit` on a single character, faithful on ASCII
(`0`-`9`). -/
def pyIsDigit (c : Char) : Bool :=
  48 ≤ c.toNat && c.toNat ≤ 57

/-- Models Python's per-character alphanumeric test used by `str.isalnum`,
faithful on the ASCII and Latin-1 letter ranges documented above. -/
def pyIsAlnumChar (c : Char) : Bool :=
  pyIsUpper c || pyIsLower c || pyIsDigit c

/-- Models Python `str.isalnum` on a whole string: true iff the string is
nonempty and every character is alphanumeric. -/
def pyIsAlnum (s : String) : Bool :=
  !s.isEmpty && s.data.all pyIsAlnumChar

/-- The fixed special-character set of `User.validate_password`
(user_model.py line 71). -/
def specialChars : String := "!@#$%^&*()_+-="

/-- `User.validate_nickname` (user_model.py lines 48-55): raising `ValueError`
is modelled as `Except.error` carrying the exception message. -/
def validate_nickname (value : String) : Except String String :=
  if !pyIsAlnum value then
    .error "Nickname must contain only alphanumeric characters."
  else if value.length < 3 || value.length > 50 then
    .error "Nickname must be between 3 and 50 characters long."
  else
    .ok value

/-- `User.validate_password` (user_model.py lines 57-73), the validator that
SQLAlchemy runs on every assignment to the `hashed_password` attribute. -/
def validate_password (value : String) : Except String String :=
  if value.length < 8 then
    .error "Password must be at least 8 characters long."
  else if !value.data.any pyIsUpper then
    .error "Password must contain at least one uppercase letter."
  else if !value.data.any pyIsLower then
    .error "Password must contain at least one lowercase letter."
  else if !value.data.any pyIsDigit then
    .error "Password must contain at least one digit."
  else if !value.data.any (fun c => specialChars.data.contains c) then
    .error "Password must contain at least one special character."
  else
    .ok value

/-- The persisted `User` record (user_model.py), restricted to the columns the
service operations under verification read or write. -/
structure User where
  id : Nat
  nickname : String
  email : String
  hashed_password : String
  email_verified : Bool
  is_locked : Bool
  failed_login_attempts : Int
  last_login_at : Option Int
  is_professional : Bool
  professional_status_updated_at : Option Int
  verification_token : Option String
deriving Repr, DecidableEq

/-- `User.update_professional_status` (user_model.py lines 95-98): sets the
flag and stamps the paired timestamp.  The source assigns `func.now()`, the
storage layer's current-time value for this mutation, modelled by the `now`
parameter. -/
def update_professional_status (now : Int) (u : User) (status : Bool) : User :=
  { u with is_professional := status, professional_status_updated_at := some now }

/-- The database visible through one session: the list of persisted rows. -/
abbrev Db := List User

/-- `UserService.get_by_email` via `_fetch_user`: first row whose `email`
column matches. -/
def get_by_email (db : Db) (email : String) : Option User :=
  List.find? (fun u => u.email == email) db

/-- `UserService.get_by_id` via `_fetch_user`: first row whose primary key
matches. -/
def get_by_id (db : Db) (uid : Nat) : Option User :=
  List.find? (fun u => u.id == uid) db

/-- `UserService.get_by_nickname` via `_fetch_user`. -/
def get_by_nickname (db : Db) (nick : String) : Option User :=
  List.find? (fun u => u.nickname == nick) db

/-- A committed mutation of a fetched row: `session.add(user)` followed by
`session.commit()` persists the mutated object over the row with its primary
key. -/
def commitUser (db : Db) (u : User) : Db :=
  db.map (fun w => if w.id == u.id then u else w)

/-- `UserService.login_user` (user_service.py lines 142-164).  The credential
verifier (`verify_password` from app.utils.security) and the configured
`settings.max_login_attempts` are external collaborators, passed as
parameters; `now` models `datetime.now(timezone.utc)`. -/
def login_user (verify : String → String → Bool) (max_login_attempts : Int)
    (now : Int) (db : Db) (email password : String) : Db × Option User :=
  match get_by_email db email with
  | none => (db, none)
  | some user =>
    if !user.email_verified then (db, none)
    else if user.is_locked then (db, none)
    else if verify password user.hashed_password then
      let u' := { user with failed_login_attempts := 0, last_login_at := some now }
      (commitUser db u', some u')
    else
      let n := user.failed_login_attempts + 1
      let u' := { user with
        failed_login_attempts := n,
        is_locked := if n ≥ max_login_attempts then true else user.is_locked }
      (commitUser db u', none)

/-- `UserService.reset_password` (user_service.py lines 166-182).  The hasher
is a parameter.  Assigning `user.hashed_password` runs the entity validator
`validate_password`; a `ValueError` there is caught by the surrounding
`except Exception` and the method returns `False` with nothing committed. -/
def reset_password (hash : String → String) (db : Db) (uid : Nat)
    (new_password : String) : Db × Bool :=
  let hashed := hash new_password
  match get_by_id db uid with
  | none => (db, false)
  | some user =>
    match validate_password hashed with
    | .error _ => (db, false)
    | .ok hp =>
      let u' := { user with
        hashed_password := hp, failed_login_attempts := 0, is_locked := false }
      (commitUser db u', true)

/-- `UserService.delete` (user_service.py lines 117-130): fetch by primary
key; absent rows yield `False` with no write, present rows are removed from
the store (`session.delete` + commit) and `True` is returned. -/
def delete (db : Db) (uid : Nat) : Db × Bool :=
  match get_by_id db uid with
  | none => (db, false)
  | some _ => (db.eraseP (fun w => w.id == uid), true)

/-- The caller-supplied registration fields the verified paths of
`UserService.create` read (the remaining profile fields are persisted
verbatim and never branched on). -/
structure CreateData where
  email : String
  password : String
deriving Repr, DecidableEq

/-- The nickname-uniqueness retry loop of `UserService.create` (user_service.py
lines 66-69): draw candidates from the generator until one is not in use.  The
source loop is unbounded; `fuel` bounds the model, and `none` models the loop
not having terminated within `fuel` draws (in which case `create` returns no
account, matching that the source call never returns). -/
def findFreshNickname (gen : Nat → String) (db : Db) : Nat → Nat → Option String
  | _, 0 => none
  | i, fuel + 1 =>
    let candidate := gen i
    if (get_by_nickname db candidate).isSome then
      findFreshNickname gen db (i + 1) fuel
    else
      some candidate

/-- Constructing `User(**validated_data)` runs the two `@validates` hooks on
the assigned `nickname` and `hashed_password` attributes; either `ValueError`
aborts construction. -/
def mkUser (uid : Nat) (nick email hashed : String) : Except String User := do
  let n ← validate_nickname nick
  let hp ← validate_password hashed
  .ok { id := uid, nickname := n, email := email, hashed_password := hp,
        email_verified := false, is_locked := false, failed_login_attempts := 0,
        last_login_at := none, is_professional := false,
        professional_status_updated_at := none, verification_token := none }

/-- `UserService.create` (user_service.py lines 52-87).  External
collaborators are parameters: `validateSchema` models the `UserCreate`
pydantic validation (`none` = `ValidationError`, caught and turned into no
account), `hash` the password hasher, `gen`/`fuel` the nickname generator and
a termination bound for its retry loop, `freshId`/`token` the generated
primary key and verification token.  Every caught exception path returns the
unchanged database and no account. -/
def create (validateSchema : CreateData → Option CreateData)
    (hash : String → String) (gen : Nat → String) (fuel : Nat)
    (freshId : Nat) (token : String) (db : Db) (d : CreateData) :
    Db × Option User :=
  match validateSchema d with
  | none => (db, none)
  | some v =>
    if (get_by_email db v.email).isSome then (db, none)
    else
      let hashed := hash v.password
      match findFreshNickname gen db 0 fuel with
      | none => (db, none)
      | some nick =>
        match mkUser freshId nick v.email hashed with
        | .error _ => (db, none)
        | .ok u =>
          let u' := { u with verification_token := some token }
          (db ++ [u'], some u')

/-- Modelled from the spec: `hash_password` lives in app/utils/security.py,
which is not part of the sources; section 4.3 only requires a non-reversible
representation with a matching verifier.  One-wayness is not expressible for
a computable function, so the model tags the input with a bcrypt-style
`$2b$12$` prefix (real bcrypt output likewise starts with this tag and
encodes salt and digest over `./A-Za-z0-9`). -/
def hash_password (plain : String) : String :=
  "$2b$12$Aa" ++ plain

/-- Modelled from the spec: `verify_password` from app/utils/security.py;
section 4.3 requires `verify(plain, hash(plain)) = true`. -/
def verify_password (plain hashed : String) : Bool :=
  hashed == hash_password plain

/-- The character class `[A-Za-z0-9]` of the spec's nickname pattern. -/
def asciiAlnum (c : Char) : Bool :=
  (65 ≤ c.toNat && c.toNat ≤ 90) || (97 ≤ c.toNat && c.toNat ≤ 122) ||
    (48 ≤ c.toNat && c.toNat ≤ 57)

/-- The spec's nickname contract, written from its words: the string matches
the regular expression `[A-Za-z0-9]{3,50}` (every character in the class, and
total length between 3 and 50). -/
def matches_nickname_pattern (s : String) : Bool :=
  s.data.all asciiAlnum && decide (3 ≤ s.length) && decide (s.length ≤ 50)

/-- A concrete persisted account used to instantiate the theorems below. -/
def sampleUser : User :=
  { id := 1, nickname := "alice1", email := "alice@example.com",
    hashed_password := hash_password "Abcdef1!", email_verified := true,
    is_locked := false, failed_login_attempts := 2, last_login_at := none,
    is_professional := false, professional_status_updated_at := none,
    verification_token := none }

lemma validate_hash_password (p : String) :
    validate_password (hash_password p) = .ok (hash_password p) := by
  have hlen : (hash_password p).length = 9 + p.length := by
    simp [hash_password, String.length_append]
    decide
  have hdata : (hash_password p).data = "$2b$12$Aa".data ++ p.data := by
    simp [hash_password]
  unfold validate_password
  rw [hlen, hdata]
  simp only [List.any_append]
  have hu : "$2b$12$Aa".data.any pyIsUpper = true := by decide
  have hl : "$2b$12$Aa".data.any pyIsLower = true := by decide
  have hd : "$2b$12$Aa".data.any pyIsDigit = true := by decide
  have hs : "$2b$12$Aa".data.any (fun c => specialChars.data.contains c) = true := by decide
  rw [hu, hl, hd, hs]
  simp
  omega

lemma pyIsAlnumChar_ascii (c : Char) (h : c.toNat ≤ 127) :
    pyIsAlnumChar c = asciiAlnum c := by
  rw [Bool.eq_iff_iff]
  simp only [pyIsAlnumChar, pyIsUpper, pyIsLower, pyIsDigit, asciiAlnum,
    Bool.or_eq_true, Bool.and_eq_true, decide_eq_true_eq]
  omega

lemma all_pyIsAlnumChar_ascii (l : List Char) (h : ∀ c ∈ l, c.toNat ≤ 127) :
    l.all pyIsAlnumChar = l.all asciiAlnum := by
  induction l with
  | nil => rfl
  | cons c cs ih =>
    simp only [List.all_cons]
    rw [pyIsAlnumChar_ascii c (h c (by simp)), ih (fun x hx => h x (by simp [hx]))]

/-- C9: `update_professional_status` sets `is_professional` to the requested
status and stamps `professional_status_updated_at` with the time of that
mutation. -/
theorem update_professional_status_stamps (now : Int) (u : User) (status : Bool) :
    (update_professional_status now u status).is_professional = status ∧
    (update_professional_status now u status).professional_status_updated_at = some now :=
  ⟨rfl, rfl⟩

/-- C5: the password validator accepts exactly when all five rules hold
(length ≥ 8, an uppercase letter, a lowercase letter, a digit, a character
from the fixed special set), and on rejection the reported reason is the
first failing rule in that order. -/
theorem validate_password_policy (s : String) :
    (validate_password s = .ok s ↔
      (8 ≤ s.length ∧ s.data.any pyIsUpper = true ∧ s.data.any pyIsLower = true ∧
        s.data.any pyIsDigit = true ∧
        s.data.any (fun c => specialChars.data.contains c) = true)) ∧
    (s.length < 8 →
      validate_password s = .error "Password must be at least 8 characters long.") ∧
    (8 ≤ s.length → s.data.any pyIsUpper = false →
      validate_password s = .error "Password must contain at least one uppercase letter.") ∧
    (8 ≤ s.length → s.data.any pyIsUpper = true → s.data.any pyIsLower = false →
      validate_password s = .error "Password must contain at least one lowercase letter.") ∧
    (8 ≤ s.length → s.data.any pyIsUpper = true → s.data.any pyIsLower = true →
      s.data.any pyIsDigit = false →
      validate_password s = .error "Password must contain at least one digit.") ∧
    (8 ≤ s.length → s.data.any pyIsUpper = true → s.data.any pyIsLower = true →
      s.data.any pyIsDigit = true →
      s.data.any (fun c => specialChars.data.contains c) = false →
      validate_password s = .error "Password must contain at least one special character.") := by
  unfold validate_password
  split_ifs with h1 h2 h3 h4 h5 <;> simp_all

/-- C5 witness: the policy accepts a conforming password and reports the
length rule first on a short one. -/
theorem validate_password_policy_witness :
    validate_password "Abcdef1!" = .ok "Abcdef1!" ∧
    validate_password "abc" = .error "Password must be at least 8 characters long." :=
  ⟨(validate_password_policy "Abcdef1!").1.mpr (by decide),
   (validate_password_policy "abc").2.1 (by decide)⟩

/-- C6 counterexample: Python's `str.isalnum` is Unicode-aware, so the
nickname `"ééé"` passes entity validation although it does not match the
spec's pattern `[A-Za-z0-9]{3,50}`. -/
theorem validate_nickname_regex_counterexample :
    validate_nickname "ééé" = .ok "ééé" ∧ matches_nickname_pattern "ééé" = false :=
  ⟨rfl, rfl⟩

/-- C6 (amended): for nicknames made of ASCII characters, entity validation
succeeds exactly when the string matches `[A-Za-z0-9]{3,50}`; non-ASCII
alphanumeric characters are additionally accepted by the code. -/
theorem validate_nickname_ascii_regex (s : String)
    (h : ∀ c ∈ s.data, c.toNat ≤ 127) :
    validate_nickname s = .ok s ↔ matches_nickname_pattern s = true := by
  by_cases hE : s = ""
  · subst hE
    have h1 : validate_nickname "" =
        .error "Nickname must contain only alphanumeric characters." := rfl
    have h2 : matches_nickname_pattern "" = false := rfl
    rw [h1, h2]
    simp
  · have hne : s.isEmpty = false := by
      rcases hb : s.isEmpty with _ | _
      · rfl
      · exact absurd ((String.isEmpty_iff s).mp hb) hE
    unfold validate_nickname pyIsAlnum matches_nickname_pattern
    rw [hne, all_pyIsAlnumChar_ascii s.data h]
    rcases ha : s.data.all asciiAlnum with _ | _ <;>
      split_ifs with h1 <;> simp_all <;> omega

/-- C6 witness: an all-ASCII nickname on which the amended equivalence yields
acceptance. -/
theorem validate_nickname_ascii_regex_witness :
    validate_nickname "abc" = .ok "abc" :=
  (validate_nickname_ascii_regex "abc" (by decide)).mpr (by decide)

/-- C1: a wrong password against a verified, unlocked account holding
`maxLoginAttempts - 1` failed attempts increments the counter to
`maxLoginAttempts`, sets `isLocked`, commits the mutated row, and returns no
authenticated account. -/
theorem login_user_lockout (verify : String → String → Bool)
    (max_login_attempts now : Int) (db : Db) (email password : String) (u : User)
    (hfind : get_by_email db email = some u)
    (hver : u.email_verified = true)
    (hlock : u.is_locked = false)
    (hpw : verify password u.hashed_password = false)
    (hcount : u.failed_login_attempts = max_login_attempts - 1) :
    login_user verify max_login_attempts now db email password =
      (commitUser db
        { u with failed_login_attempts := max_login_attempts, is_locked := true },
       none) := by
  have hn : max_login_attempts - 1 + 1 = max_login_attempts := by omega
  simp only [login_user, hfind, hver, hlock, hpw, hcount, hn]
  simp

/-- C1 witness: with a threshold of 3 and a stored counter of 2, the failed
login locks the sample account. -/
theorem login_user_lockout_witness :
    login_user (fun _ _ => false) 3 100 [sampleUser] "alice@example.com" "pw" =
      (commitUser [sampleUser]
        { sampleUser with failed_login_attempts := 3, is_locked := true },
       none) :=
  login_user_lockout (fun _ _ => false) 3 100 [sampleUser] "alice@example.com"
    "pw" sampleUser rfl rfl rfl rfl rfl

/-- C3: an account whose email is not verified can never log in — whatever
the verifier says about the password, the call returns no account and the
database is unchanged. -/
theorem login_user_unverified_frame (verify : String → String → Bool)
    (max_login_attempts now : Int) (db : Db) (email password : String) (u : User)
    (hfind : get_by_email db email = some u)
    (hver : u.email_verified = false) :
    login_user verify max_login_attempts now db email password = (db, none) := by
  simp only [login_user, hfind, hver]
  simp

/-- C3 witness: an unverified copy of the sample account fails login with a
verifier that accepts everything, and nothing is written. -/
theorem login_user_unverified_frame_witness :
    login_user (fun _ _ => true) 3 100 [{ sampleUser with email_verified := false }]
      "alice@example.com" "Abcdef1!" =
      ([{ sampleUser with email_verified := false }], none) :=
  login_user_unverified_frame (fun _ _ => true) 3 100
    [{ sampleUser with email_verified := false }] "alice@example.com" "Abcdef1!"
    { sampleUser with email_verified := false } rfl rfl

/-- C2: a successful login resets `failedLoginAttempts` to 0, stamps
`lastLoginAt` with the current time, commits, and returns the account; and a
password reset on any existing account resets `failedLoginAttempts` to 0. -/
theorem login_success_and_reset_clear_attempts :
    (∀ (verify : String → String → Bool) (max_login_attempts now : Int)
        (db : Db) (email password : String) (u : User),
      get_by_email db email = some u →
      u.email_verified = true →
      u.is_locked = false →
      verify password u.hashed_password = true →
      login_user verify max_login_attempts now db email password =
        (commitUser db { u with failed_login_attempts := 0, last_login_at := some now },
         some { u with failed_login_attempts := 0, last_login_at := some now })) ∧
    (∀ (db : Db) (uid : Nat) (new_password : String) (u : User),
      get_by_id db uid = some u →
      reset_password hash_password db uid new_password =
        (commitUser db
          { u with hashed_password := hash_password new_password,
                   failed_login_attempts := 0, is_locked := false },
         true)) := by
  constructor
  · intro verify max_login_attempts now db email password u hfind hver hlock hpw
    simp only [login_user, hfind, hver, hlock, hpw]
    simp
  · intro db uid new_password u hfind
    simp only [reset_password, hfind, validate_hash_password]

/-- C2 witness: concrete successful login and password reset on the sample
account, both clearing the counter. -/
theorem login_success_and_reset_clear_attempts_witness :
    login_user (fun _ _ => true) 3 100 [sampleUser] "alice@example.com" "Abcdef1!" =
      (commitUser [sampleUser]
        { sampleUser with failed_login_attempts := 0, last_login_at := some 100 },
       some { sampleUser with failed_login_attempts := 0, last_login_at := some 100 }) ∧
    reset_password hash_password [sampleUser] 1 "Newpw9!x" =
      (commitUser [sampleUser]
        { sampleUser with hashed_password := hash_password "Newpw9!x",
                          failed_login_attempts := 0, is_locked := false },
       true) :=
  ⟨login_success_and_reset_clear_attempts.1 (fun _ _ => true) 3 100 [sampleUser]
      "alice@example.com" "Abcdef1!" sampleUser rfl rfl rfl rfl,
   login_success_and_reset_clear_attempts.2 [sampleUser] 1 "Newpw9!x" sampleUser rfl⟩

/-- C4: resetting the password of an existing account stores the hash of the
new password (against which the new plaintext verifies), clears the failure
counter and the lock, and returns true; an unresolved identifier yields false
and leaves the database untouched. -/
theorem reset_password_full_spec :
    (∀ (db : Db) (uid : Nat) (new_password : String) (u : User),
      get_by_id db uid = some u →
      reset_password hash_password db uid new_password =
        (commitUser db
          { u with hashed_password := hash_password new_password,
                   failed_login_attempts := 0, is_locked := false },
         true) ∧
      verify_password new_password
        ({ u with hashed_password := hash_password new_password,
                  failed_login_attempts := 0, is_locked := false } : User).hashed_password
        = true) ∧
    (∀ (db : Db) (uid : Nat) (new_password : String),
      get_by_id db uid = none →
      reset_password hash_password db uid new_password = (db, false)) := by
  constructor
  · intro db uid new_password u hfind
    constructor
    · simp only [reset_password, hfind, validate_hash_password]
    · simp [verify_password]
  · intro db uid new_password hfind
    simp only [reset_password, hfind]

/-- C4 witness: a locked account with 3 failed attempts is fully restored by
a reset, and a dangling identifier resets nothing. -/
theorem reset_password_full_spec_witness :
    (reset_password hash_password
        [{ sampleUser with is_locked := true, failed_login_attempts := 3 }] 1 "Newpw9!x" =
      (commitUser [{ sampleUser with is_locked := true, failed_login_attempts := 3 }]
        { sampleUser with hashed_password := hash_password "Newpw9!x",
                          failed_login_attempts := 0, is_locked := false },
       true)) ∧
    reset_password hash_password [sampleUser] 99 "Newpw9!x" = ([sampleUser], false) :=
  ⟨((reset_password_full_spec.1
      [{ sampleUser with is_locked := true, failed_login_attempts := 3 }] 1 "Newpw9!x"
      { sampleUser with is_locked := true, failed_login_attempts := 3 } rfl).1),
   reset_password_full_spec.2 [sampleUser] 99 "Newpw9!x" rfl⟩

lemma create_duplicate_helper (validateSchema : CreateData → Option CreateData)
    (hash : String → String) (gen : Nat → String) (fuel freshId : Nat)
    (token : String) (db : Db) (d v : CreateData)
    (hv : validateSchema d = some v)
    (hdup : (get_by_email db v.email).isSome = true) :
    create validateSchema hash gen fuel freshId token db d = (db, none) := by
  simp only [create, hv, hdup]
  simp

lemma find?_append_singleton_isSome (l : List User) (u : User) (p : User → Bool)
    (hp : p u = true) : (List.find? p (l ++ [u])).isSome = true := by
  induction l with
  | nil => simp [List.find?, hp]
  | cons a t ih =>
    by_cases hpa : p a = true
    · simp [List.find?, hpa]
    · simp only [List.cons_append, List.find?]
      rw [Bool.not_eq_true] at hpa
      rw [hpa]
      exact ih

/-- C7: a registration whose (validated) email already belongs to a stored
account creates nothing — the database is returned unchanged with no account;
and after one registration succeeds, a second one targeting the same email is
rejected the same way. -/
theorem create_duplicate_email_rejected :
    (∀ (validateSchema : CreateData → Option CreateData) (hash : String → String)
        (gen : Nat → String) (fuel freshId : Nat) (token : String)
        (db : Db) (d v : CreateData),
      validateSchema d = some v →
      (get_by_email db v.email).isSome = true →
      create validateSchema hash gen fuel freshId token db d = (db, none)) ∧
    (∀ (validateSchema : CreateData → Option CreateData) (hash : String → String)
        (gen : Nat → String) (fuel freshId : Nat) (token : String)
        (db db' : Db) (d : CreateData) (u : User)
        (validateSchema2 : CreateData → Option CreateData) (hash2 : String → String)
        (gen2 : Nat → String) (fuel2 freshId2 : Nat) (token2 : String)
        (d2 v2 : CreateData),
      create validateSchema hash gen fuel freshId token db d = (db', some u) →
      validateSchema2 d2 = some v2 →
      v2.email = u.email →
      create validateSchema2 hash2 gen2 fuel2 freshId2 token2 db' d2 = (db', none)) := by
  constructor
  · exact fun vs h g fuel fid tok db d v hv hdup =>
      create_duplicate_helper vs h g fuel fid tok db d v hv hdup
  · intro vs h g fuel fid tok db db' d u vs2 h2 g2 fuel2 fid2 tok2 d2 v2
      hcreate hv2 hmail
    unfold create at hcreate
    split at hcreate
    · simp at hcreate
    · split at hcreate
      · simp at hcreate
      · split at hcreate
        · simp at hcreate
        · dsimp only at hcreate
          split at hcreate
          · simp at hcreate
          · rw [Prod.mk.injEq] at hcreate
            obtain ⟨hdb, hu⟩ := hcreate
            rw [Option.some.injEq] at hu
            refine create_duplicate_helper vs2 h2 g2 fuel2 fid2 tok2 db' d2 v2 hv2 ?_
            rw [← hdb, hmail, hu]
            exact find?_append_singleton_isSome db _ (fun w => w.email == u.email)
              (by simp [hu])

/-- C7 witness: registering the sample account's email a second time yields
no account and an unchanged store; and after a fresh successful registration,
repeating it with the same email fails. -/
theorem create_duplicate_email_rejected_witness :
    create (fun d => some d) hash_password (fun _ => "bobob") 1 2 "tok"
      [sampleUser] { email := "alice@example.com", password := "Abcdef1!" } =
      ([sampleUser], none) :=
  create_duplicate_email_rejected.1 (fun d => some d) hash_password
    (fun _ => "bobob") 1 2 "tok" [sampleUser]
    { email := "alice@example.com", password := "Abcdef1!" }
    { email := "alice@example.com", password := "Abcdef1!" } rfl rfl

lemma find?_id_eraseP_eq_none (db : Db) (uid : Nat) (u : User)
    (hnd : db.Pairwise (fun a b => a.id ≠ b.id))
    (hfind : List.find? (fun w => w.id == uid) db = some u) :
    List.find? (fun w => w.id == uid) (db.eraseP (fun w => w.id == uid)) = none := by
  induction db with
  | nil => simp at hfind
  | cons a l ih =>
    obtain ⟨ha, hl⟩ := List.pairwise_cons.mp hnd
    by_cases hp : (a.id == uid) = true
    · have he : List.eraseP (fun w => w.id == uid) (a :: l) = l := by
        simp [List.eraseP_cons, hp]
      rw [he, List.find?_eq_none]
      intro x hx
      have hax : a.id ≠ x.id := ha x hx
      simp only [beq_iff_eq] at hp ⊢
      omega
    · rw [Bool.not_eq_true] at hp
      have he : List.eraseP (fun w => w.id == uid) (a :: l) =
          a :: List.eraseP (fun w => w.id == uid) l := by
        simp [List.eraseP_cons, hp]
      rw [he]
      simp only [List.find?] at hfind ⊢
      rw [hp] at hfind ⊢
      exact ih hl hfind

/-- C8: deleting an identifier that resolves to no account returns false and
writes nothing; deleting an existing account returns true and, since primary
keys are unique, the account is gone from the resulting store. -/
theorem delete_idempotent (db : Db) (uid : Nat) :
    (get_by_id db uid = none → delete db uid = (db, false)) ∧
    (∀ u : User, get_by_id db uid = some u →
      (delete db uid).2 = true ∧
      (db.Pairwise (fun a b => a.id ≠ b.id) →
        get_by_id (delete db uid).1 uid = none)) := by
  constructor
  · intro hfind
    simp only [delete, hfind]
  · intro u hfind
    constructor
    · simp only [delete, hfind]
    · intro hnd
      simp only [delete, hfind]
      exact find?_id_eraseP_eq_none db uid u hnd hfind

/-- C8 witness: deleting a missing identifier is a no-op returning false, and
deleting the sample account succeeds and removes it. -/
theorem delete_idempotent_witness :
    delete [sampleUser] 99 = ([sampleUser], false) ∧
    (delete [sampleUser] 1).2 = true ∧
    get_by_id (delete [sampleUser] 1).1 1 = none :=
  ⟨(delete_idempotent [sampleUser] 99).1 rfl,
   ((delete_idempotent [sampleUser] 1).2 sampleUser rfl).1,
   ((delete_idempotent [sampleUser] 1).2 sampleUser rfl).2 (by simp)⟩

/-- C10: the entity password validator runs on the hasher's output, not on
the caller's plaintext: whenever the produced hash violates one of the five
rules, `create` yields no account and `reset_password` returns false with the
database unchanged, even though the plaintext itself satisfies the policy. -/
theorem hashed_value_is_validated :
    (∀ (validateSchema : CreateData → Option CreateData) (hash : String → String)
        (gen : Nat → String) (fuel freshId : Nat) (token : String)
        (db : Db) (d v : CreateData) (e : String),
      validateSchema d = some v →
      validate_password v.password = .ok v.password →
      validate_password (hash v.password) = .error e →
      create validateSchema hash gen fuel freshId token db d = (db, none)) ∧
    (∀ (hash : String → String) (db : Db) (uid : Nat) (pw : String)
        (u : User) (e : String),
      get_by_id db uid = some u →
      validate_password pw = .ok pw →
      validate_password (hash pw) = .error e →
      reset_password hash db uid pw = (db, false)) := by
  constructor
  · intro vs hash gen fuel fid tok db d v e hv _hok herr
    simp only [create, hv]
    split
    · rfl
    · split
      · rfl
      · rename_i nick _
        simp only [mkUser, herr]
        cases hvn : validate_nickname nick <;> rfl
  · intro hash db uid pw u e hfind _hok herr
    simp only [reset_password, hfind, herr]

/-- C10 witness: with a (deliberately degenerate) hasher whose output is too
short, registration and reset both fail although the plaintext satisfies the
policy. -/
theorem hashed_value_is_validated_witness :
    create (fun d => some d) (fun _ => "aaaa") (fun _ => "bobob") 1 2 "tok" []
      { email := "bob@example.com", password := "Abcdef1!" } = ([], none) ∧
    reset_password (fun _ => "aaaa") [sampleUser] 1 "Abcdef1!" = ([sampleUser], false) :=
  ⟨hashed_value_is_validated.1 (fun d => some d) (fun _ => "aaaa") (fun _ => "bobob")
      1 2 "tok" [] { email := "bob@example.com", password := "Abcdef1!" }
      { email := "bob@example.com", password := "Abcdef1!" }
      "Password must be at least 8 characters long." rfl rfl rfl,
   hashed_value_is_validated.2 (fun _ => "aaaa") [sampleUser] 1 "Abcdef1!" sampleUser
      "Password must be at least 8 characters long." rfl rfl rfl⟩

end UserApp
